import Mathlib

/-!
Verification of the "Visit Goa" tourism-site client script (`src/main.js`).

The script is shallowly embedded: each JS function that a claim mentions is
translated into an executable Lean definition over explicit state.  DOM
queries become function parameters (`Option` for a single element that may
be absent, `List` for a node list), dates become integer day ordinals (JS
`Date` comparison is comparison of the underlying timestamps), and promise
rejection / `throw` becomes `Except.error`.
-/

namespace GoaSite

/-- Embedding of JS `sub.isPrefixOf`-style matching used to build
`String.prototype.includes`: `charsHaveLead sub l` is true when `sub` is a
leading segment of `l`. -/
def charsHaveLead : List Char → List Char → Bool
  | [], _ => true
  | _, [] => false
  | a :: as, b :: bs => a == b && charsHaveLead as bs

/-- Embedding of JS `String.prototype.includes`: `sub` occurs contiguously
somewhere in `l`. -/
def charsContain (sub : List Char) : List Char → Bool
  | [] => charsHaveLead sub []
  | c :: cs => charsHaveLead sub (c :: cs) || charsContain sub cs

/-- JS `s.includes(sub)`. -/
def strIncludes (s sub : String) : Bool :=
  charsContain sub.data s.data

/-- Embedding of JS `String.prototype.toLowerCase` (ASCII case folding,
which is all the source's card texts and search terms use). -/
def jsToLower (s : String) : String :=
  ⟨s.data.map Char.toLower⟩

/-- Embedding of JS `String.prototype.trim`: strip whitespace from both
ends. -/
def jsTrim (s : String) : String :=
  ⟨((s.data.dropWhile Char.isWhitespace).reverse.dropWhile
      Char.isWhitespace).reverse⟩

/-- Embedding of JS `String.prototype.split` with a one-character
separator: `splitChars sep cs` never returns `[]`, and `"".split(sep)`
is `[""]`, matching JS. -/
def splitChars (sep : Char) : List Char → List (List Char)
  | [] => [[]]
  | c :: cs =>
    if c == sep then [] :: splitChars sep cs
    else
      match splitChars sep cs with
      | [] => [[c]]
      | h :: t => (c :: h) :: t

/-- JS `path.split('/')`. -/
def jsSplitSlash (path : String) : List String :=
  (splitChars '/' path.data).map (fun l => ⟨l⟩)

namespace PageDetector

/-- The `if`-chain of `PageDetector.getCurrentPage` (src/main.js:82-87):
classify a filename by substring match, in source order. -/
def classifyFilename (filename : String) : String :=
  if strIncludes filename "attractions" then "attractions"
  else if strIncludes filename "beaches" then "beaches"
  else if strIncludes filename "culture" then "culture"
  else if strIncludes filename "plan" then "plan"
  else if strIncludes filename "team" then "team"
  else "home"

/-- Embedding of `PageDetector.getCurrentPage` (src/main.js:78-88).  The JS
reads `window.location.pathname`; here the path is the argument.
`path.split('/').pop() || 'index.html'` is the last `/`-separated segment,
defaulting to `"index.html"` when that segment is empty. -/
def getCurrentPage (path : String) : String :=
  let filename := (jsSplitSlash path).getLastD ""
  classifyFilename (if filename = "" then "index.html" else filename)

end PageDetector

/-- Result record returned by the `validate*` helpers: `{valid, message}`. -/
structure ValidationResult where
  valid : Bool
  message : Option String
deriving DecidableEq, Repr

namespace PlanTripPage

/-- Embedding of `PlanTripPage.validateDates` (src/main.js:618-633).  The JS
compares `Date` objects, i.e. their integer timestamps; `checkin`,
`checkout` and `today` are those timestamps (day ordinals), `today` being
the current date truncated to midnight. -/
def validateDates (checkin checkout today : Int) : ValidationResult :=
  if checkin < today then
    ⟨false, some "Check-in date must be today or later"⟩
  else if checkout ≤ checkin then
    ⟨false, some "Check-out date must be after check-in date"⟩
  else
    ⟨true, none⟩

/-- Character class `[^\s@]` of the email regex. -/
def emailCharOk (c : Char) : Bool :=
  !c.isWhitespace && c != '@'

/-- Embedding of the JS regex test `/^[^\s@]+@[^\s@]+\.[^\s@]+$/.test s`:
the string decomposes as `A ++ "@" ++ B ++ "." ++ C` with `A`, `B`, `C`
nonempty and made of characters that are neither whitespace nor `@`.
`i` ranges over the position of the `@`, `j` over the position of the `.`
that separates `B` from `C`. -/
def emailRegexTest (s : String) : Bool :=
  let cs := s.data
  let n := cs.length
  (List.range n).any fun i =>
    (List.range n).any fun j =>
      decide (0 < i) && decide (i + 1 < j) && decide (j + 1 < n) &&
      (cs.take i).all emailCharOk &&
      (cs.getD i ' ' == '@') &&
      ((cs.drop (i + 1)).take (j - (i + 1))).all emailCharOk &&
      (cs.getD j ' ' == '.') &&
      ((cs.drop (j + 1)).all emailCharOk)

/-- Embedding of `PlanTripPage.validateEmail` (src/main.js:636-650).  JS
`!email || email.trim() === ''` on a string is exactly `email.trim = ""`. -/
def validateEmail (email : String) : ValidationResult :=
  if jsTrim email = "" then
    ⟨false, some "Please enter your email address"⟩
  else if !emailRegexTest email then
    ⟨false, some "Please enter a valid email address"⟩
  else
    ⟨true, none⟩

/-- Embedding of the click handler installed by
`PlanTripPage.initInterestTags` (src/main.js:570-585) on
`PlanTripPage.selectedInterests`: if the clicked tag's interest is already
selected, every occurrence is filtered out; otherwise it is pushed at the
end. -/
def toggleInterest (selectedInterests : List String) (interest : String) : List String :=
  if selectedInterests.contains interest then
    selectedInterests.filter (fun i => i ≠ interest)
  else
    selectedInterests ++ [interest]

/-- The `selectedInterests` list after a sequence of interest-tag clicks,
starting from the initial value `[]` (src/main.js:558). -/
def interestsAfterClicks (clicks : List String) : List String :=
  clicks.foldl toggleInterest []

/-- The `tripData` object assembled by the submit handler. -/
structure TripData where
  email : String
  checkinDate : Int
  checkoutDate : Int
  travelers : String
  interests : List String
  specialRequests : String
deriving DecidableEq, Repr

/-- Outcome of one run of the trip-form submit handler: either an error
notification is shown and the handler returns early, or the simulated
submission runs with the assembled `tripData`. -/
inductive SubmitOutcome where
  | rejected (message : String)
  | submitted (data : TripData)
deriving DecidableEq, Repr

/-- Embedding of the submit handler installed by
`PlanTripPage.initFormSubmission` (src/main.js:655-719).  The date fields
are already parsed to timestamps (see `validateDates`); `travelers` is
`Option String` because `FormData.get` yields `null` when the field is
missing, and JS `!travelers` is falsy exactly for `null` and `""`. -/
def handleTripFormSubmit (email : String) (checkin checkout : Int)
    (travelers : Option String) (interests : List String)
    (specialRequests : String) (today : Int) : SubmitOutcome :=
  let emailValidation := validateEmail email
  if !emailValidation.valid then
    .rejected (emailValidation.message.getD "")
  else
    let dateValidation := validateDates checkin checkout today
    if !dateValidation.valid then
      .rejected (dateValidation.message.getD "")
    else if travelers.getD "" = "" then
      .rejected "Please select number of travelers"
    else if interests.length = 0 then
      .rejected "Please select at least one travel interest"
    else
      .submitted ⟨email, checkin, checkout, travelers.getD "", interests, specialRequests⟩

end PlanTripPage

/-- One attraction card, reduced to the three text fields the search reads
(`.card-title`, `.card-description`, `.card-location` text content; the JS
`?.` / `|| ''` fallbacks make each a plain string). -/
structure Card where
  title : String
  description : String
  location : String
deriving DecidableEq, Repr

namespace AttractionsPage

/-- The per-card match test of `AttractionsPage.initSearch`
(src/main.js:340-346): the search term occurs (case-insensitively, the JS
lower-cases both sides) in the title, description or location. -/
def cardMatches (searchTerm : String) (card : Card) : Bool :=
  strIncludes (jsToLower card.title) searchTerm ||
  strIncludes (jsToLower card.description) searchTerm ||
  strIncludes (jsToLower card.location) searchTerm

/-- Visibility decided at src/main.js:348: shown when it matches or the
term is empty, hidden (`display: none`) otherwise. -/
def cardVisibleAfterSearch (searchTerm : String) (card : Card) : Bool :=
  cardMatches searchTerm card || searchTerm == ""

/-- The announcement string of `AttractionsPage.announceResults`
(src/main.js:394-395). -/
def mkAnnouncement (visible total : Nat) : String :=
  "Showing " ++ toString visible ++ " of " ++ toString total ++ " attractions"

/-- Embedding of one run of `searchAttractions` inside
`AttractionsPage.initSearch` (src/main.js:334-357): from the raw input
value it derives the term (`value.toLowerCase().trim()`), computes each
card's visibility, counts the visible cards with the same running counter
the JS uses, and produces the live-region announcement. -/
def searchAttractions (rawInput : String) (cards : List Card) :
    List Bool × String :=
  let searchTerm := jsTrim (jsToLower rawInput)
  let visibility := cards.map (cardVisibleAfterSearch searchTerm)
  let visibleCount := cards.foldl
    (fun acc card => if cardVisibleAfterSearch searchTerm card then acc + 1 else acc) 0
  (visibility, mkAnnouncement visibleCount cards.length)

/-- One category filter tab (`.filter-tab`): its `data-category` attribute
and whether it carries the `active` class. -/
structure FilterButton where
  category : String
  active : Bool
deriving DecidableEq, Repr

/-- `btn.classList.remove('active')` applied to every tab
(src/main.js:371). -/
def deactivateAll (buttons : List FilterButton) : List FilterButton :=
  buttons.map (fun b => { b with active := false })

/-- `button.classList.add('active')` on the clicked tab, the element at
index `i` (src/main.js:372); other elements are untouched. -/
def activateAt : List FilterButton → Nat → List FilterButton
  | [], _ => []
  | b :: bs, 0 => { b with active := true } :: bs
  | b :: bs, n + 1 => b :: activateAt bs n

/-- Per-card visibility of the category filter (src/main.js:381): shown
when the active category is `all` or equals the card's `data-category`. -/
def cardVisibleInCategory (category : String) (cardCategory : String) : Bool :=
  category == "all" || cardCategory == category

/-- Embedding of the click handler installed by
`AttractionsPage.initFilters` (src/main.js:367-390) when the tab at index
`i` is clicked: every tab loses `active`, the clicked one gains it, each
card's visibility is recomputed from the clicked tab's category, and the
count is announced.  `cardCategories` lists each `.attraction-card`'s
`data-category`. -/
def filterClick (buttons : List FilterButton) (cardCategories : List String)
    (i : Nat) : List FilterButton × List Bool × String :=
  let category := ((buttons.getD i ⟨"", false⟩)).category
  let newButtons := activateAt (deactivateAll buttons) i
  let visibility := cardCategories.map (cardVisibleInCategory category)
  let visibleCount := cardCategories.foldl
    (fun acc c => if cardVisibleInCategory category c then acc + 1 else acc) 0
  (newButtons, visibility, mkAnnouncement visibleCount cardCategories.length)

end AttractionsPage

/-- The state the mobile-nav click handler reads and writes: the toggle's
`aria-expanded` attribute (`getAttribute` yields `null`, i.e. `none`, when
absent) and whether the menu carries the `active` class. -/
structure NavState where
  ariaExpanded : Option String
  menuActive : Bool
deriving DecidableEq, Repr

namespace SharedFeatures

/-- Embedding of the menu-toggle click handler installed by
`SharedFeatures.initMobileNav` (src/main.js:107-117): `isExpanded` is
whether the attribute string equals `"true"`; `setAttribute` stringifies
`!isExpanded` to `"true"`/`"false"`; `classList.toggle('active')` flips
the class. -/
def menuToggleClick (s : NavState) : NavState :=
  let isExpanded := s.ariaExpanded == some "true"
  { ariaExpanded := some (if isExpanded then "false" else "true"),
    menuActive := !s.menuActive }

/-- One DOM side effect performed by an `init*` function while it runs:
registering an event listener, setting an attribute, or starting to
observe an element with an `IntersectionObserver`. -/
inductive DOMEffect where
  | addListener (target : String) (event : String)
  | setAttr (target : String) (attrName : String) (value : String)
  | observe (target : String)
deriving DecidableEq, Repr

/-- A DOM element as the shared `init*` functions see it: an identifier
and whether it already has a `tabindex` attribute (the only attribute any
of them inspects before writing). -/
structure Elem where
  id : String
  hasTabindex : Bool
deriving DecidableEq, Repr

/-- Embedding of `SharedFeatures.initMobileNav` (src/main.js:101-143) as
the list of DOM effects it performs, given the two `querySelector`
results.  `if (!menuToggle || !navMenu) return;` guards everything. -/
def initMobileNav (menuToggle navMenu : Option Elem) : List DOMEffect :=
  match menuToggle, navMenu with
  | some t, some _ =>
    [.addListener t.id "click", .addListener "document" "keydown",
     .addListener "document" "click", .addListener "window" "resize"]
  | _, _ => []

/-- Embedding of `SharedFeatures.initBackToTop` (src/main.js:146-166):
`if (!backToTopBtn) return;` guards both listener registrations. -/
def initBackToTop (backToTopBtn : Option Elem) : List DOMEffect :=
  match backToTopBtn with
  | some b => [.addListener "window" "scroll", .addListener b.id "click"]
  | none => []

/-- Embedding of `SharedFeatures.initSmoothScroll` (src/main.js:169-193):
one click listener per anchor returned by
`querySelectorAll('a[href^="#"]')`. -/
def initSmoothScroll (anchors : List Elem) : List DOMEffect :=
  anchors.map (fun a => .addListener a.id "click")

/-- Embedding of `SharedFeatures.initLazyLoading` (src/main.js:196-214):
when `IntersectionObserver` exists, each lazy image is observed; otherwise
nothing happens. -/
def initLazyLoading (images : List Elem) (hasIntersectionObserver : Bool) :
    List DOMEffect :=
  if hasIntersectionObserver then images.map (fun img => .observe img.id)
  else []

/-- Embedding of `SharedFeatures.enhanceAccessibility`
(src/main.js:217-236): each card gets `tabindex="0"` unless it already has
a `tabindex` attribute, plus a keydown listener. -/
def enhanceAccessibility (cards : List Elem) : List DOMEffect :=
  cards.foldr
    (fun card acc =>
      (if !card.hasTabindex then [DOMEffect.setAttr card.id "tabindex" "0"] else [])
        ++ [DOMEffect.addListener card.id "keydown"] ++ acc)
    []

end SharedFeatures

/-- Outcome of one `fetch` call as the stub client's `try` block observes
it: the promise rejects (a network failure), or it resolves with a
response whose `ok` flag and `status` are given and whose `.json()` either
yields a value or rejects with a parse error. -/
inductive FetchOutcome (α : Type) where
  | reject (message : String)
  | resolve (ok : Bool) (status : Nat) (json : Except String α)
deriving Repr

/-- Value an API stub function hands back when it returns normally: the
parsed JSON body, or the `{success: false, error}` object built in a
`catch` block. -/
inductive APIReturn (α : Type) where
  | value (v : α)
  | failureResult (error : String)
deriving DecidableEq, Repr

namespace API

/-- Message of the `Error` thrown on a non-ok response
(src/main.js:804). -/
def httpErrorMessage (status : Nat) : String :=
  "HTTP error! status: " ++ toString status

/-- Embedding of `API.fetchAttractions` (src/main.js:801-810).  The result
is the list of `console.error` log lines paired with the function's
outcome: `Except.ok` for a normal return, `Except.error` for an exception
propagated to the caller. -/
def fetchAttractions {α : Type} (f : FetchOutcome α) :
    List String × Except String (APIReturn α) :=
  match f with
  | .reject msg =>
    (["Failed to fetch attractions: " ++ msg], .ok (.failureResult msg))
  | .resolve ok status json =>
    if !ok then
      (["Failed to fetch attractions: " ++ httpErrorMessage status],
       .ok (.failureResult (httpErrorMessage status)))
    else
      match json with
      | .ok v => ([], .ok (.value v))
      | .error msg =>
        (["Failed to fetch attractions: " ++ msg], .ok (.failureResult msg))

/-- URL selected by `API.fetchBeaches` (src/main.js:814-816). -/
def beachesURL (region : String) : String :=
  if region == "all" then "/api/beaches" else "/api/beaches/region/" ++ region

/-- Embedding of `API.fetchBeaches` (src/main.js:812-824), same
conventions as `fetchAttractions`.  The first component records the URL
the function fetches, chosen from `region`. -/
def fetchBeaches {α : Type} (region : String) (f : FetchOutcome α) :
    String × List String × Except String (APIReturn α) :=
  (beachesURL region, match f with
  | .reject msg =>
    (["Failed to fetch beaches: " ++ msg], .ok (.failureResult msg))
  | .resolve ok status json =>
    if !ok then
      (["Failed to fetch beaches: " ++ httpErrorMessage status],
       .ok (.failureResult (httpErrorMessage status)))
    else
      match json with
      | .ok v => ([], .ok (.value v))
      | .error msg =>
        (["Failed to fetch beaches: " ++ msg], .ok (.failureResult msg)))

/-- Embedding of `API.submitTripPlan` (src/main.js:826-839).  Its `catch`
block logs and then executes `throw error`, so every failure is an
`Except.error` propagated to the caller. -/
def submitTripPlan {α : Type} (f : FetchOutcome α) :
    List String × Except String (APIReturn α) :=
  match f with
  | .reject msg =>
    (["Failed to submit trip plan: " ++ msg], .error msg)
  | .resolve ok status json =>
    if !ok then
      (["Failed to submit trip plan: " ++ httpErrorMessage status],
       .error (httpErrorMessage status))
    else
      match json with
      | .ok v => ([], .ok (.value v))
      | .error msg =>
        (["Failed to submit trip plan: " ++ msg], .error msg)

end API

/-! ## Shared helper lemmas -/

/-- The empty string occurs in every character list. -/
theorem charsContain_nil (l : List Char) : charsContain [] l = true := by
  cases l <;> rfl

/-- JS `s.includes('')` is always true. -/
theorem strIncludes_empty_sub (s : String) : strIncludes s "" = true :=
  charsContain_nil s.data

/-- Every card matches the empty search term. -/
theorem cardMatches_empty_term (c : Card) :
    AttractionsPage.cardMatches "" c = true := by
  simp [AttractionsPage.cardMatches, strIncludes_empty_sub]

/-- The `matches || searchTerm === ''` visibility test collapses to the
match test alone, because the empty term matches everything. -/
theorem cardVisible_eq_matches (t : String) (c : Card) :
    AttractionsPage.cardVisibleAfterSearch t c = AttractionsPage.cardMatches t c := by
  by_cases h : t = ""
  · subst h
    simp [AttractionsPage.cardVisibleAfterSearch, cardMatches_empty_term]
  · have hb : (t == "") = false := beq_eq_false_iff_ne.mpr h
    simp [AttractionsPage.cardVisibleAfterSearch, hb]

/-- The running `visibleCount` counter of the JS handlers equals the number
of `true` entries of the visibility list. -/
theorem foldl_count {α : Type} (p : α → Bool) (l : List α) (n : Nat) :
    l.foldl (fun acc x => if p x then acc + 1 else acc) n
      = n + (l.map p).count true := by
  induction l generalizing n with
  | nil => simp
  | cons x xs ih =>
    cases h : p x
    · simp [h, ih, List.count_cons]
    · simp [h, ih, List.count_cons]
      omega

/-! ## Claims -/

/-- Claim C1: in `PlanTripPage.validateDates`, a check-in strictly before
today is invalid, a check-out equal to or before the check-in is invalid,
and check-in today with check-out tomorrow is valid. -/
theorem claim_C1_date_validation (checkin checkout today : Int) :
    (checkin < today →
      (PlanTripPage.validateDates checkin checkout today).valid = false) ∧
    (checkout ≤ checkin →
      (PlanTripPage.validateDates checkin checkout today).valid = false) ∧
    (PlanTripPage.validateDates today (today + 1) today).valid = true := by
  unfold PlanTripPage.validateDates
  refine ⟨fun h => by rw [if_pos h], fun h => ?_, ?_⟩
  · by_cases h2 : checkin < today
    · rw [if_pos h2]
    · rw [if_neg h2, if_pos h]
  · rw [if_neg (lt_irrefl today), if_neg (by omega)]

/-- Witness for C1 at concrete dates (day ordinals). -/
theorem claim_C1_date_validation_witness :
    (PlanTripPage.validateDates 3 9 5).valid = false ∧
    (PlanTripPage.validateDates 6 6 5).valid = false ∧
    (PlanTripPage.validateDates 5 6 5).valid = true :=
  ⟨(claim_C1_date_validation 3 9 5).1 (by decide),
   (claim_C1_date_validation 6 6 5).2.1 (by decide),
   (claim_C1_date_validation 5 6 5).2.2⟩

/-- Claim C9: `PlanTripPage.validateEmail` rejects `"not-an-email"` and
accepts `"a@b.co"`. -/
theorem claim_C9_email_validation :
    (PlanTripPage.validateEmail "not-an-email").valid = false ∧
    (PlanTripPage.validateEmail "a@b.co").valid = true := by
  decide

/-- Every classification result is one of the six page names. -/
theorem classifyFilename_mem (fn : String) :
    PageDetector.classifyFilename fn ∈
      (["attractions", "beaches", "culture", "plan", "team", "home"] : List String) := by
  unfold PageDetector.classifyFilename
  repeat' split
  all_goals simp

/-- A filename matching none of the five substrings classifies as home. -/
theorem classifyFilename_home (fn : String)
    (h : ∀ sub ∈ (["attractions", "beaches", "culture", "plan", "team"] : List String),
      strIncludes fn sub = false) :
    PageDetector.classifyFilename fn = "home" := by
  have h1 := h "attractions" (by simp)
  have h2 := h "beaches" (by simp)
  have h3 := h "culture" (by simp)
  have h4 := h "plan" (by simp)
  have h5 := h "team" (by simp)
  simp [PageDetector.classifyFilename, h1, h2, h3, h4, h5]

/-- Claim C3: `PageDetector.getCurrentPage` always yields one of the six
page names, and yields `home` whenever the filename portion of the path
contains none of the five page substrings. -/
theorem claim_C3_page_detection (path : String) :
    PageDetector.getCurrentPage path ∈
      (["attractions", "beaches", "culture", "plan", "team", "home"] : List String) ∧
    ((∀ sub ∈ (["attractions", "beaches", "culture", "plan", "team"] : List String),
        strIncludes ((jsSplitSlash path).getLastD "") sub = false) →
      PageDetector.getCurrentPage path = "home") := by
  constructor
  · exact classifyFilename_mem _
  · intro h
    show PageDetector.classifyFilename
      (if (jsSplitSlash path).getLastD "" = "" then "index.html"
       else (jsSplitSlash path).getLastD "") = "home"
    by_cases h0 : (jsSplitSlash path).getLastD "" = ""
    · rw [if_pos h0]
      decide
    · rw [if_neg h0]
      exact classifyFilename_home _ h

/-- Witness for C3 on a concrete path whose filename matches nothing. -/
theorem claim_C3_page_detection_witness :
    PageDetector.getCurrentPage "/docs/guide.html" ∈
      (["attractions", "beaches", "culture", "plan", "team", "home"] : List String) ∧
    PageDetector.getCurrentPage "/docs/guide.html" = "home" :=
  ⟨(claim_C3_page_detection "/docs/guide.html").1,
   (claim_C3_page_detection "/docs/guide.html").2 (by decide)⟩

/-- Claim C5: a trip-form submission with an empty interest list is always
rejected with an error notification; the simulated submission never runs,
whatever the other fields hold. -/
theorem claim_C5_empty_interests_rejected (email : String)
    (checkin checkout : Int) (travelers : Option String)
    (specialRequests : String) (today : Int) :
    ∃ message,
      PlanTripPage.handleTripFormSubmit email checkin checkout travelers []
          specialRequests today
        = PlanTripPage.SubmitOutcome.rejected message := by
  unfold PlanTripPage.handleTripFormSubmit
  dsimp only
  repeat' first
    | exact ⟨_, rfl⟩
    | split

/-- Claim C6: clicking the menu toggle twice restores `aria-expanded` (for
either of its two well-formed values) and restores the `active` class, so a
menu that started hidden stays hidden. -/
theorem claim_C6_nav_toggle (s : NavState)
    (h : s.ariaExpanded = some "true" ∨ s.ariaExpanded = some "false") :
    (SharedFeatures.menuToggleClick (SharedFeatures.menuToggleClick s)).ariaExpanded
        = s.ariaExpanded ∧
    (SharedFeatures.menuToggleClick (SharedFeatures.menuToggleClick s)).menuActive
        = s.menuActive := by
  rcases h with h | h <;>
    simp [SharedFeatures.menuToggleClick, h]

/-- Witness for C6 from the initial hidden state. -/
theorem claim_C6_nav_toggle_witness :
    (SharedFeatures.menuToggleClick
        (SharedFeatures.menuToggleClick ⟨some "false", false⟩)).ariaExpanded
      = some "false" ∧
    (SharedFeatures.menuToggleClick
        (SharedFeatures.menuToggleClick ⟨some "false", false⟩)).menuActive
      = false :=
  claim_C6_nav_toggle ⟨some "false", false⟩ (Or.inr rfl)

/-- Toggling preserves the no-duplicates invariant. -/
theorem toggleInterest_nodup (s : List String) (i : String) (h : s.Nodup) :
    (PlanTripPage.toggleInterest s i).Nodup := by
  unfold PlanTripPage.toggleInterest
  split
  · exact h.filter _
  · rename_i hc
    rw [List.contains_eq_any_beq] at hc
    have hm : i ∉ s := by
      intro hmem
      simp [List.any_eq_true] at hc
      exact hc hmem
    refine List.nodup_append.mpr ⟨h, List.nodup_singleton i, ?_⟩
    intro a ha hai
    rw [List.mem_singleton] at hai
    subst hai
    exact hm ha

/-- From the initial empty list, any click sequence leaves
`selectedInterests` duplicate-free. -/
theorem interestsAfterClicks_nodup (clicks : List String) :
    (PlanTripPage.interestsAfterClicks clicks).Nodup := by
  suffices h : ∀ s : List String, s.Nodup → (clicks.foldl PlanTripPage.toggleInterest s).Nodup from
    h [] List.nodup_nil
  induction clicks with
  | nil => intro s hs; exact hs
  | cons c cs ih =>
    intro s hs
    exact ih _ (toggleInterest_nodup s c hs)

/-- Claim C8: each shared-feature initializer performs no DOM effect at all
when its target elements are absent. -/
theorem claim_C8_missing_element_noop (e : Option SharedFeatures.Elem) (b : Bool) :
    SharedFeatures.initMobileNav none e = [] ∧
    SharedFeatures.initMobileNav e none = [] ∧
    SharedFeatures.initBackToTop none = [] ∧
    SharedFeatures.initSmoothScroll [] = [] ∧
    SharedFeatures.initLazyLoading [] b = [] ∧
    SharedFeatures.enhanceAccessibility [] = [] := by
  refine ⟨?_, ?_, rfl, rfl, ?_, rfl⟩
  · cases e <;> rfl
  · cases e <;> rfl
  · cases b <;> rfl

/-- Toggling an interest that is not selected appends it. -/
theorem toggleInterest_not_mem (s : List String) (i : String) (h : i ∉ s) :
    PlanTripPage.toggleInterest s i = s ++ [i] := by
  unfold PlanTripPage.toggleInterest
  rw [if_neg]
  intro hc
  rw [List.contains_eq_any_beq, List.any_eq_true] at hc
  obtain ⟨a, ha, he⟩ := hc
  have hia : i = a := eq_of_beq he
  subst hia
  exact h ha

/-- Toggling an interest that is selected filters out every occurrence. -/
theorem toggleInterest_mem (s : List String) (i : String) (h : i ∈ s) :
    PlanTripPage.toggleInterest s i = s.filter (fun x => x ≠ i) := by
  unfold PlanTripPage.toggleInterest
  rw [if_pos]
  rw [List.contains_eq_any_beq, List.any_eq_true]
  exact ⟨i, h, beq_self_eq_true i⟩

/-- Counterexample to claim C10 as stated: from the empty list, click
`beaches`, then `culture`, giving `["beaches", "culture"]`; clicking
`beaches` twice more yields `["culture", "beaches"]`, not the prior
value. -/
theorem claim_C10_interest_toggle_counterexample :
    PlanTripPage.toggleInterest
        (PlanTripPage.toggleInterest
          (PlanTripPage.interestsAfterClicks ["beaches", "culture"]) "beaches")
        "beaches"
      ≠ PlanTripPage.interestsAfterClicks ["beaches", "culture"] := by
  decide

/-- Claim C10 (amended): `selectedInterests` never contains duplicates;
clicking a tag twice restores the exact prior list when its interest was
not selected, and in general restores the prior list up to permutation
(the same set of interests). -/
theorem claim_C10_interest_toggle (clicks : List String) (s : List String)
    (i : String) :
    (PlanTripPage.interestsAfterClicks clicks).Nodup ∧
    (i ∉ s →
      PlanTripPage.toggleInterest (PlanTripPage.toggleInterest s i) i = s) ∧
    (s.Nodup →
      (PlanTripPage.toggleInterest (PlanTripPage.toggleInterest s i) i).Perm s) := by
  have hdouble : ∀ t : List String, i ∉ t →
      PlanTripPage.toggleInterest (PlanTripPage.toggleInterest t i) i = t := by
    intro t ht
    rw [toggleInterest_not_mem t i ht,
      toggleInterest_mem _ i (by simp),
      List.filter_append]
    have h1 : t.filter (fun x => x ≠ i) = t :=
      List.filter_eq_self.mpr fun a ha => by
        simp only [ne_eq, decide_eq_true_eq]
        intro he
        subst he
        exact ht ha
    have h2 : [i].filter (fun x => x ≠ i) = ([] : List String) := by simp
    rw [h1, h2, List.append_nil]
  refine ⟨interestsAfterClicks_nodup clicks, hdouble s, fun hnd => ?_⟩
  by_cases hm : i ∈ s
  · rw [toggleInterest_mem s i hm, toggleInterest_not_mem _ i (by simp)]
    have hperm1 : (s.filter (fun x => x ≠ i) ++ [i]).Perm
        (i :: s.filter (fun x => x ≠ i)) := List.perm_append_singleton i _
    have he : s.erase i = s.filter (fun x => x != i) :=
      List.Nodup.erase_eq_filter hnd i
    have hfe : s.filter (fun x => x != i) = s.filter (fun x => x ≠ i) :=
      List.filter_congr fun a _ => by
        by_cases ha : a = i <;> simp [ha]
    have hperm2 : s.Perm (i :: s.filter (fun x => x ≠ i)) := by
      have hpc := List.perm_cons_erase hm
      rw [he, hfe] at hpc
      exact hpc
    exact hperm1.trans hperm2.symm
  · rw [hdouble s hm]

/-- Witness for C10 at concrete interest lists. -/
theorem claim_C10_interest_toggle_witness :
    (PlanTripPage.interestsAfterClicks ["beaches", "culture"]).Nodup ∧
    PlanTripPage.toggleInterest
        (PlanTripPage.toggleInterest ["culture"] "beaches") "beaches"
      = ["culture"] ∧
    (PlanTripPage.toggleInterest
        (PlanTripPage.toggleInterest ["beaches", "culture"] "beaches")
        "beaches").Perm ["beaches", "culture"] :=
  ⟨(claim_C10_interest_toggle ["beaches", "culture"] [] "x").1,
   (claim_C10_interest_toggle [] ["culture"] "beaches").2.1 (by decide),
   (claim_C10_interest_toggle [] ["beaches", "culture"] "beaches").2.2 (by decide)⟩

/-- Counterexample to claim C2 as stated: on a network failure,
`API.submitTripPlan` propagates the error to its caller instead of
returning a `{success: false, error}` result. -/
theorem claim_C2_api_counterexample :
    (API.submitTripPlan (FetchOutcome.reject "network failure" : FetchOutcome Unit)).2
      = Except.error "network failure" := rfl

/-- Claim C2 (amended): `API.fetchAttractions` and `API.fetchBeaches` never
propagate an error to the caller, and on a network failure they log it and
return the `{success: false, error}` result; `API.submitTripPlan` logs the
network failure but re-throws it to the caller. -/
theorem claim_C2_api_error_handling {α : Type} (region msg : String)
    (f : FetchOutcome α) :
    (∀ e, (API.fetchAttractions f).2 ≠ Except.error e) ∧
    (∀ e, (API.fetchBeaches region f).2.2 ≠ Except.error e) ∧
    (API.fetchAttractions (FetchOutcome.reject msg : FetchOutcome α)
      = (["Failed to fetch attractions: " ++ msg],
         Except.ok (APIReturn.failureResult msg))) ∧
    ((API.fetchBeaches region (FetchOutcome.reject msg : FetchOutcome α)).2
      = (["Failed to fetch beaches: " ++ msg],
         Except.ok (APIReturn.failureResult msg))) ∧
    (API.submitTripPlan (FetchOutcome.reject msg : FetchOutcome α)
      = (["Failed to submit trip plan: " ++ msg], Except.error msg)) := by
  refine ⟨?_, ?_, rfl, rfl, rfl⟩
  · intro e
    cases f with
    | reject m => simp [API.fetchAttractions]
    | resolve ok status json =>
      cases ok <;> cases json <;> simp [API.fetchAttractions]
  · intro e
    cases f with
    | reject m => simp [API.fetchBeaches]
    | resolve ok status json =>
      cases ok <;> cases json <;> simp [API.fetchBeaches]

/-- Claim C4: in the attractions search, an empty (processed) term shows
every card; a term matching no card hides every card; a card is visible
exactly when it matches the term; and the announced count is the number of
visible cards out of the total. -/
theorem claim_C4_search_filter (rawInput : String) (cards : List Card) :
    (jsTrim (jsToLower rawInput) = "" →
      (AttractionsPage.searchAttractions rawInput cards).1
        = cards.map (fun _ => true)) ∧
    ((∀ c ∈ cards,
        AttractionsPage.cardMatches (jsTrim (jsToLower rawInput)) c = false) →
      (AttractionsPage.searchAttractions rawInput cards).1
        = cards.map (fun _ => false)) ∧
    ((AttractionsPage.searchAttractions rawInput cards).1
      = cards.map (AttractionsPage.cardMatches (jsTrim (jsToLower rawInput)))) ∧
    ((AttractionsPage.searchAttractions rawInput cards).2
      = AttractionsPage.mkAnnouncement
          ((AttractionsPage.searchAttractions rawInput cards).1.count true)
          cards.length) := by
  have hvis : (AttractionsPage.searchAttractions rawInput cards).1
      = cards.map (AttractionsPage.cardMatches (jsTrim (jsToLower rawInput))) := by
    show cards.map (AttractionsPage.cardVisibleAfterSearch (jsTrim (jsToLower rawInput)))
      = cards.map (AttractionsPage.cardMatches (jsTrim (jsToLower rawInput)))
    exact List.map_congr_left fun c _ => cardVisible_eq_matches _ c
  refine ⟨fun h => ?_, fun h => ?_, hvis, ?_⟩
  · rw [hvis, h]
    exact List.map_congr_left fun c _ => cardMatches_empty_term c
  · rw [hvis]
    exact List.map_congr_left h
  · show AttractionsPage.mkAnnouncement
        (cards.foldl
          (fun acc card =>
            if AttractionsPage.cardVisibleAfterSearch (jsTrim (jsToLower rawInput)) card
            then acc + 1 else acc) 0)
        cards.length
      = AttractionsPage.mkAnnouncement
          ((AttractionsPage.searchAttractions rawInput cards).1.count true)
          cards.length
    rw [foldl_count, Nat.zero_add]
    rfl

/-- Witness for C4: the empty term shows the one card, a non-matching term
hides it. -/
theorem claim_C4_search_filter_witness :
    (AttractionsPage.searchAttractions ""
        [⟨"Fort Aguada", "Old fort", "Candolim"⟩]).1
      = [⟨"Fort Aguada", "Old fort", "Candolim"⟩].map
          (fun _ : Card => true) ∧
    (AttractionsPage.searchAttractions "zzz"
        [⟨"Fort Aguada", "Old fort", "Candolim"⟩]).1
      = [⟨"Fort Aguada", "Old fort", "Candolim"⟩].map
          (fun _ : Card => false) :=
  ⟨(claim_C4_search_filter "" [⟨"Fort Aguada", "Old fort", "Candolim"⟩]).1 rfl,
   (claim_C4_search_filter "zzz" [⟨"Fort Aguada", "Old fort", "Candolim"⟩]).2.1
     (by decide)⟩

/-- Removing the `active` class everywhere makes the active-flag column
all-false. -/
theorem deactivateAll_map_active (l : List AttractionsPage.FilterButton) :
    (AttractionsPage.deactivateAll l).map (fun b => b.active)
      = l.map (fun _ => false) := by
  simp only [AttractionsPage.deactivateAll, List.map_map]
  rfl

/-- After removing `active` everywhere and adding it on the clicked button,
the active-flag column is true exactly at the clicked index. -/
theorem filterClick_active_column (l : List AttractionsPage.FilterButton)
    (i : Nat) :
    (AttractionsPage.activateAt (AttractionsPage.deactivateAll l) i).map
        (fun b => b.active)
      = (List.range l.length).map (fun j => decide (j = i)) := by
  induction l generalizing i with
  | nil => rfl
  | cons b bs ih =>
    cases i with
    | zero =>
      show true :: (AttractionsPage.deactivateAll bs).map (fun b => b.active)
        = (List.range (bs.length + 1)).map (fun j => decide (j = 0))
      rw [List.range_succ_eq_map, List.map_cons, List.map_map,
        deactivateAll_map_active]
      refine List.cons_eq_cons.mpr ⟨by decide, ?_⟩
      have hr : (List.range bs.length).map ((fun j => decide (j = 0)) ∘ Nat.succ)
          = (List.range bs.length).map (fun _ => false) :=
        List.map_congr_left fun j _ => by simp
      rw [hr, List.map_const', List.map_const', List.length_range]
    | succ n =>
      show false
          :: (AttractionsPage.activateAt (AttractionsPage.deactivateAll bs) n).map
              (fun b => b.active)
        = (List.range (bs.length + 1)).map (fun j => decide (j = n + 1))
      rw [List.range_succ_eq_map, List.map_cons, List.map_map, ih n]
      refine List.cons_eq_cons.mpr ⟨?_, ?_⟩
      · exact (decide_eq_false_iff_not.mpr (by omega)).symm
      · exact List.map_congr_left fun j _ => by
          rw [Function.comp_apply, decide_eq_decide]
          omega

/-- The all-false-but-one column has exactly one `true` when the
distinguished index is in range. -/
theorem count_true_decide_range (n i : Nat) (h : i < n) :
    ((List.range n).map (fun j => decide (j = i))).count true = 1 := by
  induction n with
  | zero => omega
  | succ m ih =>
    rw [List.range_succ, List.map_append, List.count_append]
    by_cases hi : i < m
    · rw [ih hi]
      have hd : decide (m = i) = false := by simp; omega
      simp [hd]
    · have him : i = m := by omega
      subst him
      have h0 : ((List.range i).map (fun j => decide (j = i))).count true = 0 := by
        rw [List.count_eq_zero]
        intro hmem
        rw [List.mem_map] at hmem
        obtain ⟨j, hj, hdec⟩ := hmem
        rw [List.mem_range] at hj
        simp at hdec
        omega
      rw [h0]
      simp

/-- Claim C7: after a click on the category filter tab at index `i`,
exactly the clicked tab carries the `active` class (so exactly one is
active), and the live-region announcement shows the recomputed
visible-of-total count. -/
theorem claim_C7_filter_click (buttons : List AttractionsPage.FilterButton)
    (cardCategories : List String) (i : Nat) (h : i < buttons.length) :
    ((AttractionsPage.filterClick buttons cardCategories i).1.map
        (fun b => b.active)
      = (List.range buttons.length).map (fun j => decide (j = i))) ∧
    (((AttractionsPage.filterClick buttons cardCategories i).1.map
        (fun b => b.active)).count true = 1) ∧
    ((AttractionsPage.filterClick buttons cardCategories i).2.2
      = AttractionsPage.mkAnnouncement
          ((AttractionsPage.filterClick buttons cardCategories i).2.1.count true)
          cardCategories.length) := by
  have hcol : ((AttractionsPage.filterClick buttons cardCategories i).1.map
      (fun b => b.active))
      = (List.range buttons.length).map (fun j => decide (j = i)) :=
    filterClick_active_column buttons i
  refine ⟨hcol, ?_, ?_⟩
  · rw [hcol]
    exact count_true_decide_range _ _ h
  · show AttractionsPage.mkAnnouncement
        (cardCategories.foldl
          (fun acc c =>
            if AttractionsPage.cardVisibleInCategory
                ((buttons.getD i ⟨"", false⟩)).category c
            then acc + 1 else acc) 0)
        cardCategories.length
      = AttractionsPage.mkAnnouncement
          ((AttractionsPage.filterClick buttons cardCategories i).2.1.count true)
          cardCategories.length
    rw [foldl_count, Nat.zero_add]
    rfl

/-- Witness for C7: clicking the second of two tabs. -/
theorem claim_C7_filter_click_witness :
    ((AttractionsPage.filterClick [⟨"all", true⟩, ⟨"churches", false⟩]
        ["churches", "beachfront"] 1).1.map (fun b => b.active)
      = (List.range
          (List.length
            ([⟨"all", true⟩, ⟨"churches", false⟩] :
              List AttractionsPage.FilterButton))).map (fun j => decide (j = 1))) ∧
    (((AttractionsPage.filterClick [⟨"all", true⟩, ⟨"churches", false⟩]
        ["churches", "beachfront"] 1).1.map (fun b => b.active)).count true = 1) ∧
    ((AttractionsPage.filterClick [⟨"all", true⟩, ⟨"churches", false⟩]
        ["churches", "beachfront"] 1).2.2
      = AttractionsPage.mkAnnouncement
          ((AttractionsPage.filterClick [⟨"all", true⟩, ⟨"churches", false⟩]
              ["churches", "beachfront"] 1).2.1.count true)
          (List.length ["churches", "beachfront"])) :=
  claim_C7_filter_click [⟨"all", true⟩, ⟨"churches", false⟩]
    ["churches", "beachfront"] 1 (by decide)

end GoaSite
